import Mathlib

/-!
Shallow embedding of the terrain/placement core of the Wasteland-invaders
repository, together with theorems checking its specification.

Source files embedded:
* `src/heightmapgenerator/enemy_placement_generator.rs` — river exclusion
  analysis (multi-source BFS distance field), Sobel slope map, windowed
  flatness maps, and the placement-zone selector/scorer.
* `src/heightmapgenerator/height_map_generator.rs` — the height sampler with
  domain warping, river meander/carve/erosion model.
* `src/heightmapgenerator/height_map_renderer.rs` — the water classification
  used when building the terrain mesh.

Modelling conventions:
* Rust `f32` values are modelled as elements of a linear ordered field
  (a generic `α`, instantiated at `ℚ` for concrete witnesses and at `ℝ`
  where the source uses `sqrt`/`sin`/`cos`/`powf`).
* `Vec<Vec<f32>>` grids indexed `[y][x]` are modelled as functions
  `Nat → Nat → _` together with explicit `width`/`height` bounds.
* `f32::INFINITY` in the distance field is modelled by `⊤` in `WithTop α`.
* The noise generators of the external `noise` crate are modelled as an
  abstract bank of arbitrary functions `ℝ → ℝ → ℝ` (the crate is an external
  dependency, not part of this repository).
* The BFS worklist loop is modelled with an explicit fuel parameter; all
  theorems are proved for every fuel value, hence in particular for the
  fuel at which the Rust loop terminates.
-/

namespace Wasteland

/-- Placement configuration, from `EnemyPlacementConfig` in
`enemy_placement_generator.rs`. -/
structure EnemyPlacementConfig (α : Type) where
  river_threshold : α
  bank_margin : α
  min_distance_from_river : α
  building_radius : α
  tank_radius : α
  vehicle_radius : α
  max_slope : α
  min_flat_area : α
  flatness_safety_margin : α

/-- Result of `analyze_river_exclusion`: distance field (with `⊤` for
`f32::INFINITY`), water mask and exclusion mask. -/
structure RiverAnalysis (α : Type) where
  distance_field : Nat → Nat → WithTop α
  water_mask : Nat → Nat → Bool
  exclusion_mask : Nat → Nat → Bool

/-- Pointwise update of a grid, modelling `grid[y][x] = v`. -/
def gridWrite {β : Type} (g : Nat → Nat → β) (y x : Nat) (v : β) :
    Nat → Nat → β :=
  fun y0 x0 => if y0 = y ∧ x0 = x then v else g y0 x0

/-- State of the multi-source BFS in `calculate_distance_field`:
the distance grid and the `VecDeque` worklist (front at the head). -/
structure DFState (α : Type) where
  dist : Nat → Nat → WithTop α
  queue : List (Nat × Nat)

/-- The 8-connected neighbourhood directions, in source order. -/
def dfDirections : List (Int × Int) :=
  [(0, 1), (1, 0), (0, -1), (-1, 0), (1, 1), (-1, -1), (1, -1), (-1, 1)]

/-- One neighbour relaxation of the BFS: bounds check, step cost `1.414`
for diagonal moves and `1.0` otherwise, relax if strictly smaller and
push to the back of the queue. -/
def relaxNeighbor {α : Type} [LinearOrderedField α] (w h x y : Nat)
    (cur : WithTop α) (s : DFState α) (d : Int × Int) : DFState α :=
  let nx : Int := (x : Int) + d.1
  let ny : Int := (y : Int) + d.2
  if 0 ≤ nx ∧ nx < (w : Int) ∧ 0 ≤ ny ∧ ny < (h : Int) then
    let nxn := nx.toNat
    let nyn := ny.toNat
    let step : α := if d.1.natAbs + d.2.natAbs = 2 then 1414 / 1000 else 1
    let nd : WithTop α := cur + (step : WithTop α)
    if nd < s.dist nyn nxn then
      { dist := gridWrite s.dist nyn nxn nd, queue := s.queue ++ [(nxn, nyn)] }
    else s
  else s

/-- Relax all 8 neighbours of the popped cell `(x, y)`, with
`cur = distance_field[y][x]` read once before the loop, as in the source. -/
def relaxNeighbors {α : Type} [LinearOrderedField α] (w h x y : Nat)
    (cur : WithTop α) (s : DFState α) : DFState α :=
  dfDirections.foldl (relaxNeighbor w h x y cur) s

/-- The `while let Some((x, y)) = queue.pop_front()` loop, with fuel. -/
def bfsLoop {α : Type} [LinearOrderedField α] (w h : Nat) :
    Nat → DFState α → DFState α
  | 0, s => s
  | Nat.succ fuel, s =>
    match s.queue with
    | [] => s
    | (x, y) :: rest =>
      bfsLoop w h fuel (relaxNeighbors w h x y (s.dist y x) { s with queue := rest })

/-- Initial BFS state: all water cells seeded at distance `0` (others at
`⊤`, modelling `f32::INFINITY`), queued in row-major order. -/
def initialDF {α : Type} [LinearOrderedField α]
    (water : Nat → Nat → Bool) (w h : Nat) : DFState α :=
  { dist := fun y x => if water y x then 0 else ⊤
    queue := (List.range h).flatMap fun y =>
      (List.range w).filterMap fun x => if water y x then some (x, y) else none }

/-- `calculate_distance_field` from `enemy_placement_generator.rs`. -/
def calculate_distance_field {α : Type} [LinearOrderedField α]
    (water : Nat → Nat → Bool) (w h fuel : Nat) : Nat → Nat → WithTop α :=
  (bfsLoop w h fuel (initialDF water w h)).dist

/-- `analyze_river_exclusion` from `enemy_placement_generator.rs`:
threshold the river mask into a water mask, run the BFS distance field,
and mark as excluded every water cell and every cell strictly closer to
water than `bank_margin`. -/
def analyze_river_exclusion {α : Type} [LinearOrderedField α]
    (cfg : EnemyPlacementConfig α) (river_mask : Nat → Nat → α)
    (w h fuel : Nat) : RiverAnalysis α :=
  let water_mask : Nat → Nat → Bool :=
    fun y x => decide (cfg.river_threshold ≤ river_mask y x)
  let distance_field := calculate_distance_field water_mask w h fuel
  { distance_field := distance_field
    water_mask := water_mask
    exclusion_mask := fun y x =>
      water_mask y x || decide (distance_field y x < (cfg.bank_margin : WithTop α)) }

/-- The BFS invariant: water cells are pinned at distance `0` and all
other cells have strictly positive (possibly `⊤`) distance. -/
def dfInv {α : Type} [LinearOrderedField α]
    (water : Nat → Nat → Bool) (s : DFState α) : Prop :=
  ∀ x y, (water y x = true → s.dist y x = 0) ∧ (water y x = false → 0 < s.dist y x)

theorem withTop_pos_add {α : Type} [LinearOrderedField α]
    (cur : WithTop α) (step : α) (hcur : 0 ≤ cur) (hstep : 0 < step) :
    (0 : WithTop α) < cur + (step : WithTop α) := by
  induction cur with
  | top =>
    rw [WithTop.top_add]
    exact lt_of_lt_of_le (WithTop.coe_lt_top 0) le_rfl
  | coe a =>
    rw [← WithTop.coe_add, ← WithTop.coe_zero, WithTop.coe_lt_coe]
    rw [← WithTop.coe_zero, WithTop.coe_le_coe] at hcur
    linarith

theorem dfInv_nonneg {α : Type} [LinearOrderedField α]
    {water : Nat → Nat → Bool} {s : DFState α} (hs : dfInv water s)
    (x y : Nat) : 0 ≤ s.dist y x := by
  rcases hb : water y x with _ | _
  · exact le_of_lt ((hs x y).2 hb)
  · exact le_of_eq ((hs x y).1 hb).symm

theorem gridWrite_inv {α : Type} [LinearOrderedField α]
    {water : Nat → Nat → Bool} {s : DFState α} (hs : dfInv water s)
    {cur : WithTop α} (hcur : 0 ≤ cur) {step : α} (hstep : 0 < step)
    {ny nx : Nat} (hlt : cur + (step : WithTop α) < s.dist ny nx)
    (q : List (Nat × Nat)) :
    dfInv water
      { dist := gridWrite s.dist ny nx (cur + (step : WithTop α)), queue := q } := by
  have hndpos : (0 : WithTop α) < cur + (step : WithTop α) :=
    withTop_pos_add cur step hcur hstep
  intro x0 y0
  constructor
  · intro hw
    show (if y0 = ny ∧ x0 = nx then _ else s.dist y0 x0) = 0
    by_cases hc : y0 = ny ∧ x0 = nx
    · exfalso
      rcases hc with ⟨hc1, hc2⟩
      subst hc1; subst hc2
      have h0 : s.dist y0 x0 = 0 := (hs x0 y0).1 hw
      rw [h0] at hlt
      exact absurd hlt (not_lt_of_le (le_of_lt hndpos))
    · rw [if_neg hc]
      exact (hs x0 y0).1 hw
  · intro hw
    show (0 : WithTop α) < (if y0 = ny ∧ x0 = nx then _ else s.dist y0 x0)
    by_cases hc : y0 = ny ∧ x0 = nx
    · rw [if_pos hc]; exact hndpos
    · rw [if_neg hc]; exact (hs x0 y0).2 hw

theorem relaxNeighbor_inv {α : Type} [LinearOrderedField α]
    {water : Nat → Nat → Bool} (w h x y : Nat) {cur : WithTop α}
    (hcur : 0 ≤ cur) {s : DFState α} (hs : dfInv water s) (d : Int × Int) :
    dfInv water (relaxNeighbor w h x y cur s d) := by
  simp only [relaxNeighbor]
  split_ifs <;>
    first
      | exact hs
      | exact gridWrite_inv hs hcur (by norm_num) (by assumption) _

theorem relaxNeighbors_inv {α : Type} [LinearOrderedField α]
    {water : Nat → Nat → Bool} (w h x y : Nat) {cur : WithTop α}
    (hcur : 0 ≤ cur) {s : DFState α} (hs : dfInv water s) :
    dfInv water (relaxNeighbors w h x y cur s) := by
  unfold relaxNeighbors
  generalize dfDirections = l
  induction l generalizing s with
  | nil => exact hs
  | cons d t ih => exact ih (relaxNeighbor_inv w h x y hcur hs d)

theorem bfsLoop_inv {α : Type} [LinearOrderedField α]
    {water : Nat → Nat → Bool} (w h : Nat) (fuel : Nat) {s : DFState α}
    (hs : dfInv water s) : dfInv water (bfsLoop w h fuel s) := by
  induction fuel generalizing s with
  | zero => exact hs
  | succ n ih =>
    show dfInv water (bfsLoop w h (Nat.succ n) s)
    unfold bfsLoop
    match hq : s.queue with
    | [] => exact hs
    | (x, y) :: rest =>
      have hs' : dfInv water ({ s with queue := rest } : DFState α) := hs
      exact ih (relaxNeighbors_inv w h x y (dfInv_nonneg hs x y) hs')

theorem initialDF_inv {α : Type} [LinearOrderedField α]
    (water : Nat → Nat → Bool) (w h : Nat) :
    dfInv water (initialDF (α := α) water w h) := by
  intro x y
  constructor
  · intro hw
    show (if water y x then (0 : WithTop α) else ⊤) = 0
    rw [if_pos hw]
  · intro hw
    show (0 : WithTop α) < (if water y x then 0 else ⊤)
    rw [hw]
    simp

theorem calculate_distance_field_inv {α : Type} [LinearOrderedField α]
    (water : Nat → Nat → Bool) (w h fuel : Nat) :
    ∀ x y,
      (water y x = true → calculate_distance_field (α := α) water w h fuel y x = 0) ∧
      (water y x = false → 0 < calculate_distance_field (α := α) water w h fuel y x) :=
  bfsLoop_inv w h fuel (initialDF_inv water w h)

/-- Claim C1: for every water-mask grid, the river analysis produced by
`analyze_river_exclusion` satisfies: `distance_field[c] = 0` for every water
cell, `distance_field[c] > 0` for every non-water cell (`⊤` counts as
positive, matching `f32::INFINITY`), and
`exclusion_mask[c] ↔ water_mask[c] ∨ distance_field[c] < bank_margin`. -/
theorem river_analysis_invariants {α : Type} [LinearOrderedField α]
    (cfg : EnemyPlacementConfig α) (river_mask : Nat → Nat → α)
    (w h fuel : Nat) :
    (∀ x y, (analyze_river_exclusion cfg river_mask w h fuel).water_mask y x = true →
      (analyze_river_exclusion cfg river_mask w h fuel).distance_field y x = 0) ∧
    (∀ x y, (analyze_river_exclusion cfg river_mask w h fuel).water_mask y x = false →
      0 < (analyze_river_exclusion cfg river_mask w h fuel).distance_field y x) ∧
    (∀ x y, ((analyze_river_exclusion cfg river_mask w h fuel).exclusion_mask y x = true ↔
      ((analyze_river_exclusion cfg river_mask w h fuel).water_mask y x = true ∨
        (analyze_river_exclusion cfg river_mask w h fuel).distance_field y x
          < (cfg.bank_margin : WithTop α)))) := by
  refine ⟨?_, ?_, ?_⟩
  · intro x y hw
    exact (calculate_distance_field_inv _ w h fuel x y).1 hw
  · intro x y hw
    exact (calculate_distance_field_inv _ w h fuel x y).2 hw
  · intro x y
    simp only [analyze_river_exclusion, Bool.or_eq_true, decide_eq_true_eq]

/-- A concrete placement configuration (the `Default` values of
`EnemyPlacementConfig` in the source), over `ℚ`. -/
def cfgQ : EnemyPlacementConfig ℚ :=
  { river_threshold := 3/10
    bank_margin := 8
    min_distance_from_river := 12
    building_radius := 4
    tank_radius := 3
    vehicle_radius := 2
    max_slope := 1/5
    min_flat_area := 7/10
    flatness_safety_margin := 3/2 }

/-- A concrete 2×2 river mask with water only at the origin. -/
def maskQ : Nat → Nat → ℚ :=
  fun y x => if y = 0 ∧ x = 0 then 1 else 0

theorem river_analysis_invariants_witness :
    (analyze_river_exclusion cfgQ maskQ 2 2 9).water_mask 0 0 = true ∧
    (analyze_river_exclusion cfgQ maskQ 2 2 9).distance_field 0 0 = 0 ∧
    (analyze_river_exclusion cfgQ maskQ 2 2 9).water_mask 1 1 = false ∧
    0 < (analyze_river_exclusion cfgQ maskQ 2 2 9).distance_field 1 1 := by
  have hw00 : (analyze_river_exclusion cfgQ maskQ 2 2 9).water_mask 0 0 = true := by
    simp only [analyze_river_exclusion, cfgQ, maskQ]
    norm_num
  have hw11 : (analyze_river_exclusion cfgQ maskQ 2 2 9).water_mask 1 1 = false := by
    simp only [analyze_river_exclusion, cfgQ, maskQ]
    norm_num
  exact ⟨hw00, (river_analysis_invariants cfgQ maskQ 2 2 9).1 0 0 hw00, hw11,
    (river_analysis_invariants cfgQ maskQ 2 2 9).2.1 1 1 hw11⟩

/-- `ZoneType` from `enemy_placement_generator.rs`. -/
inductive ZoneType : Type
  | Building : ZoneType
  | Tank : ZoneType
  | Vehicle : ZoneType
deriving DecidableEq

/-- `PlacementZone`. Positions are grid coordinates `(x, y)` (the source
stores them as `Vec2::new(x as f32, y as f32)`). -/
structure PlacementZone (α : Type) where
  position : Nat × Nat
  zone_type : ZoneType
  suitability_score : α
deriving DecidableEq

/-- The river-analysis data consumed by `find_suitable_zones`. The distance
field is modelled with plain field values: whenever the grid contains at
least one water cell the BFS reaches every cell, so `f32::INFINITY` never
survives into this structure. -/
structure RiverAnalysisData (α : Type) where
  distance_field : Nat → Nat → α
  water_mask : Nat → Nat → Bool
  exclusion_mask : Nat → Nat → Bool

/-- `TerrainAnalysis` from `enemy_placement_generator.rs`. -/
structure TerrainAnalysis (α : Type) where
  height_map : Nat → Nat → α
  slope_map : Nat → Nat → α
  building_flatness_map : Nat → Nat → α
  tank_flatness_map : Nat → Nat → α
  vehicle_flatness_map : Nat → Nat → α
  river_analysis : RiverAnalysisData α

/-- `calculate_suitability_score`: weighted sum of normalized river
distance, slope score `1 - slope/max_slope`, flatness, and height capped
at `1`. -/
def calculate_suitability_score {α : Type} [LinearOrderedField α]
    (cfg : EnemyPlacementConfig α) (river_distance slope flatness height : α) : α :=
  let river_score := (river_distance - cfg.min_distance_from_river) / 20
  let slope_score := 1 - slope / cfg.max_slope
  let flatness_score := flatness
  let height_score := min height 1
  river_score * (25/100) + slope_score * (3/10) + flatness_score * (3/10) +
    height_score * (15/100)

/-- The per-cell body of the loop in `find_suitable_zones`: the two `continue`
filters followed by the Building / Tank / Vehicle `if`/`else if` chain. -/
def classifyCell {α : Type} [LinearOrderedField α]
    (cfg : EnemyPlacementConfig α) (ta : TerrainAnalysis α) (x y : Nat) :
    Option (PlacementZone α) :=
  if ta.river_analysis.exclusion_mask y x then none
  else if ta.river_analysis.distance_field y x < cfg.min_distance_from_river then none
  else if cfg.min_flat_area ≤ ta.building_flatness_map y x ∧
      ta.slope_map y x ≤ cfg.max_slope ∧
      20 < ta.river_analysis.distance_field y x then
    some { position := (x, y), zone_type := ZoneType.Building
           suitability_score := calculate_suitability_score cfg
             (ta.river_analysis.distance_field y x) (ta.slope_map y x)
             (ta.building_flatness_map y x) (ta.height_map y x) }
  else if cfg.min_flat_area ≤ ta.tank_flatness_map y x ∧
      ta.slope_map y x ≤ cfg.max_slope ∧
      15 < ta.river_analysis.distance_field y x then
    some { position := (x, y), zone_type := ZoneType.Tank
           suitability_score := calculate_suitability_score cfg
             (ta.river_analysis.distance_field y x) (ta.slope_map y x)
             (ta.tank_flatness_map y x) (ta.height_map y x) }
  else if cfg.min_flat_area ≤ ta.vehicle_flatness_map y x ∧
      ta.slope_map y x ≤ cfg.max_slope then
    some { position := (x, y), zone_type := ZoneType.Vehicle
           suitability_score := calculate_suitability_score cfg
             (ta.river_analysis.distance_field y x) (ta.slope_map y x)
             (ta.vehicle_flatness_map y x) (ta.height_map y x) }
  else none

/-- `find_suitable_zones`: scan the interior cells (margin 5), classify each,
and sort the collected zones by descending suitability score (the source
uses `sort_by` with a reversed `partial_cmp`; any sort produces the same
list up to the ordering, and the claims below only use the multiset). -/
def find_suitable_zones {α : Type} [LinearOrderedField α]
    (cfg : EnemyPlacementConfig α) (ta : TerrainAnalysis α) (w h : Nat) :
    List (PlacementZone α) :=
  List.insertionSort (fun a b => b.suitability_score ≤ a.suitability_score)
    ((List.range' 5 (h - 10)).flatMap fun y =>
      (List.range' 5 (w - 10)).flatMap fun x => (classifyCell cfg ta x y).toList)

/-- The square sampling window of `calculate_flatness_map`: offsets
`(i, j)` with `i, j ∈ [0, 2r]` standing for `(dy, dx) = (i - r, j - r)`. -/
def windowOffsets (r : Nat) : List (Nat × Nat) :=
  (List.range (2 * r + 1)).flatMap fun i =>
    (List.range (2 * r + 1)).map fun j => (i, j)

/-- The bounds check `nx < width && ny < height` of the inner sampling loop
(the lower bounds are automatic: the loop only visits `x, y ≥ radius`). -/
def windowInBounds (r w h y x : Nat) (o : Nat × Nat) : Bool :=
  decide (y + o.1 - r < h) && decide (x + o.2 - r < w)

/-- The body of the flatness window at one cell: the fraction of in-bounds
samples whose slope is at most `max_slope`. -/
def flatnessAt {α : Type} [LinearOrderedField α]
    (max_slope : α) (slope_map : Nat → Nat → α) (r w h y x : Nat) : α :=
  let samples := windowOffsets r
  let total_flatness : α :=
    ((samples.filter fun o => windowInBounds r w h y x o &&
      decide (slope_map (y + o.1 - r) (x + o.2 - r) ≤ max_slope)).length : α)
  let sample_count : α :=
    ((samples.filter fun o => windowInBounds r w h y x o).length : α)
  total_flatness / sample_count

/-- `calculate_flatness_map`: a grid of zeros over-written, cell by cell, for
`y ∈ [radius, height - radius)` and `x ∈ [radius, width - radius)`. -/
def calculate_flatness_map {α : Type} [LinearOrderedField α]
    (max_slope : α) (slope_map : Nat → Nat → α) (radius w h : Nat) :
    Nat → Nat → α :=
  (List.range' radius (h - radius - radius)).foldl (fun g y =>
    (List.range' radius (w - radius - radius)).foldl (fun g x =>
      gridWrite g y x (flatnessAt max_slope slope_map radius w h y x)) g)
    (fun _ _ => 0)

theorem foldl_gridWrite_row {β : Type} (f : Nat → Nat → β) (y : Nat)
    (l : List Nat) (g : Nat → Nat → β) (y0 x0 : Nat) :
    (l.foldl (fun g x => gridWrite g y x (f y x)) g) y0 x0 =
      if y0 = y ∧ x0 ∈ l then f y x0 else g y0 x0 := by
  induction l generalizing g with
  | nil => simp
  | cons a t ih =>
    rw [List.foldl_cons, ih]
    simp only [gridWrite, List.mem_cons]
    by_cases hy : y0 = y <;> by_cases ha : x0 = a <;> by_cases hx : x0 ∈ t <;>
      simp [hy, ha, hx]

theorem foldl_gridWrite_grid {β : Type} (f : Nat → Nat → β)
    (rows cols : List Nat) (g : Nat → Nat → β) (y0 x0 : Nat) :
    (rows.foldl (fun g y =>
        cols.foldl (fun g x => gridWrite g y x (f y x)) g) g) y0 x0 =
      if y0 ∈ rows ∧ x0 ∈ cols then f y0 x0 else g y0 x0 := by
  induction rows generalizing g with
  | nil => simp
  | cons a t ih =>
    rw [List.foldl_cons, ih, foldl_gridWrite_row]
    simp only [List.mem_cons]
    by_cases ha : y0 = a <;> by_cases ht : y0 ∈ t <;> by_cases hx : x0 ∈ cols <;>
      simp [ha, ht, hx]

theorem calculate_flatness_map_eval {α : Type} [LinearOrderedField α]
    (max_slope : α) (slope_map : Nat → Nat → α) (radius w h y x : Nat) :
    calculate_flatness_map max_slope slope_map radius w h y x =
      if (radius ≤ y ∧ y < radius + (h - radius - radius)) ∧
          (radius ≤ x ∧ x < radius + (w - radius - radius)) then
        flatnessAt max_slope slope_map radius w h y x
      else 0 := by
  unfold calculate_flatness_map
  rw [foldl_gridWrite_grid]
  simp only [List.mem_range'_1]

theorem flatnessAt_mem_center {α : Type} [LinearOrderedField α]
    (max_slope : α) (slope_map : Nat → Nat → α) {r w h y x : Nat}
    (hy : y < h) (hx : x < w) :
    (r, r) ∈ (windowOffsets r).filter (windowInBounds r w h y x) := by
  rw [List.mem_filter]
  constructor
  · unfold windowOffsets
    rw [List.mem_flatMap]
    exact ⟨r, List.mem_range.mpr (by omega),
      List.mem_map.mpr ⟨r, List.mem_range.mpr (by omega), rfl⟩⟩
  · unfold windowInBounds
    simp only [Bool.and_eq_true, decide_eq_true_eq]
    omega

theorem flatnessAt_range {α : Type} [LinearOrderedField α]
    (max_slope : α) (slope_map : Nat → Nat → α) {r w h y x : Nat}
    (hy : y < h) (hx : x < w) :
    0 ≤ flatnessAt max_slope slope_map r w h y x ∧
      flatnessAt max_slope slope_map r w h y x ≤ 1 := by
  unfold flatnessAt
  have hcountle :
      ((windowOffsets r).filter fun o => windowInBounds r w h y x o &&
        decide (slope_map (y + o.1 - r) (x + o.2 - r) ≤ max_slope)).length ≤
      ((windowOffsets r).filter fun o => windowInBounds r w h y x o).length := by
    rw [← List.countP_eq_length_filter, ← List.countP_eq_length_filter]
    exact List.countP_mono_left (fun o _ ho => (Bool.and_eq_true _ _ |>.mp ho).1)
  have hpos : 0 < ((windowOffsets r).filter fun o => windowInBounds r w h y x o).length :=
    List.length_pos_of_mem (flatnessAt_mem_center max_slope slope_map hy hx)
  have hposα : (0 : α) < (((windowOffsets r).filter fun o => windowInBounds r w h y x o).length : α) := by
    exact_mod_cast hpos
  constructor
  · exact div_nonneg (by positivity) (le_of_lt hposα)
  · rw [div_le_one hposα]
    exact_mod_cast hcountle

/-- Claim C10: the flatness computation writes only the cells at least
`radius` away from every border; every cell strictly closer than `radius`
to a grid edge keeps its initial value `0`, hence can never meet a positive
`min_flat_area` threshold. -/
theorem flatness_map_border {α : Type} [LinearOrderedField α]
    (max_slope : α) (slope_map : Nat → Nat → α) (radius w h : Nat)
    (hrw : radius ≤ w) (hrh : radius ≤ h) :
    (∀ y x, calculate_flatness_map max_slope slope_map radius w h y x =
      if radius ≤ y ∧ y < h - radius ∧ radius ≤ x ∧ x < w - radius then
        flatnessAt max_slope slope_map radius w h y x
      else 0) ∧
    (∀ (min_flat_area : α) (y x : Nat), 0 < min_flat_area →
      (y < radius ∨ x < radius ∨ h ≤ y + radius ∨ w ≤ x + radius) →
      ¬ (min_flat_area ≤ calculate_flatness_map max_slope slope_map radius w h y x)) := by
  have heval : ∀ y x, calculate_flatness_map max_slope slope_map radius w h y x =
      if radius ≤ y ∧ y < h - radius ∧ radius ≤ x ∧ x < w - radius then
        flatnessAt max_slope slope_map radius w h y x
      else 0 := by
    intro y x
    rw [calculate_flatness_map_eval]
    have hiff : ((radius ≤ y ∧ y < radius + (h - radius - radius)) ∧
        radius ≤ x ∧ x < radius + (w - radius - radius)) ↔
        (radius ≤ y ∧ y < h - radius ∧ radius ≤ x ∧ x < w - radius) := by
      omega
    rw [if_congr hiff rfl rfl]
  refine ⟨heval, ?_⟩
  intro mfa y x hmfa hb
  rw [heval y x, if_neg (by omega)]
  exact not_le.mpr hmfa

theorem flatness_map_border_witness :
    calculate_flatness_map (1/5 : ℚ) (fun _ _ => 0) 2 8 8 1 3 =
      (if 2 ≤ 1 ∧ 1 < 8 - 2 ∧ 2 ≤ 3 ∧ 3 < 8 - 2 then
        flatnessAt (1/5 : ℚ) (fun _ _ => 0) 2 8 8 1 3 else 0) ∧
    ¬ ((7/10 : ℚ) ≤ calculate_flatness_map (1/5 : ℚ) (fun _ _ => 0) 2 8 8 1 3) := by
  have h := flatness_map_border (1/5 : ℚ) (fun _ _ => 0) 2 8 8 (by norm_num) (by norm_num)
  exact ⟨h.1 1 3, h.2 (7/10) 1 3 (by norm_num) (by norm_num)⟩

/-- The Sobel gradient magnitude at an interior cell, from
`calculate_slope_map` (kernels divided by 8, magnitude `√(gx²+gy²)`). -/
noncomputable def sobelMagnitude (hm : Nat → Nat → ℝ) (y x : Nat) : ℝ :=
  let gx := (-1 * hm (y-1) (x-1) + 1 * hm (y-1) (x+1) +
             -2 * hm y (x-1) + 2 * hm y (x+1) +
             -1 * hm (y+1) (x-1) + 1 * hm (y+1) (x+1)) / 8
  let gy := (-1 * hm (y-1) (x-1) - 2 * hm (y-1) x - 1 * hm (y-1) (x+1) +
             1 * hm (y+1) (x-1) + 2 * hm (y+1) x + 1 * hm (y+1) (x+1)) / 8
  Real.sqrt (gx * gx + gy * gy)

/-- The `slope_values` vector: all interior magnitudes in row-major order. -/
noncomputable def slopeValues (hm : Nat → Nat → ℝ) (w h : Nat) : List ℝ :=
  (List.range (h - 2)).flatMap fun i =>
    (List.range (w - 2)).map fun j => sobelMagnitude hm (i + 1) (j + 1)

/-- The 95th-percentile normalizer: sort ascending and index at
`⌊len * 0.95⌋` (the `usize` cast of `len as f32 * 0.95`), modelled as
`19 * len / 20`. Indexing an empty vector panics in the source; the model
returns the default `0`, and the theorems assume `w, h ≥ 3` so that the
vector is non-empty. -/
noncomputable def slopeP95 (hm : Nat → Nat → ℝ) (w h : Nat) : ℝ :=
  (List.insertionSort (fun a b : ℝ => a ≤ b) (slopeValues hm w h)).getD
    (19 * (slopeValues hm w h).length / 20) 0

/-- `calculate_slope_map`: Sobel magnitude at interior cells normalized by
the 95th percentile and clamped with `.min(1.0)`; border cells stay `0`.
When the percentile is `0`, `f32` division yields `NaN` (for magnitude `0`)
or `+∞`, and `f32::min` of either with `1.0` returns `1.0`; that case is
modelled by the explicit `1` branch. -/
noncomputable def calculate_slope_map (hm : Nat → Nat → ℝ) (w h : Nat) :
    Nat → Nat → ℝ :=
  fun y x =>
    if 1 ≤ y ∧ y < h - 1 ∧ 1 ≤ x ∧ x < w - 1 then
      if slopeP95 hm w h = 0 then 1
      else min (sobelMagnitude hm y x / slopeP95 hm w h) 1
    else 0

theorem slopeValues_nonneg (hm : Nat → Nat → ℝ) (w h : Nat) :
    ∀ v ∈ slopeValues hm w h, 0 ≤ v := by
  intro v hv
  unfold slopeValues at hv
  rw [List.mem_flatMap] at hv
  obtain ⟨i, _, hv⟩ := hv
  rw [List.mem_map] at hv
  obtain ⟨j, _, rfl⟩ := hv
  exact Real.sqrt_nonneg _

theorem slopeP95_nonneg (hm : Nat → Nat → ℝ) (w h : Nat) :
    0 ≤ slopeP95 hm w h := by
  unfold slopeP95
  set l := List.insertionSort (fun a b : ℝ => a ≤ b) (slopeValues hm w h) with hl
  set i := 19 * (slopeValues hm w h).length / 20 with hi
  by_cases hlen : i < l.length
  · rw [List.getD_eq_getElem l 0 hlen]
    exact slopeValues_nonneg hm w h _
      ((List.perm_insertionSort (fun a b : ℝ => a ≤ b) (slopeValues hm w h)).subset
        (List.getElem_mem hlen))
  · rw [List.getD_eq_default l 0 (le_of_not_lt hlen)]

/-- Claim C6: every value of the slope grid lies in `[0, 1]`, and every
value of every flatness grid lies in `[0, 1]`. The `w, h > 2` hypotheses
restrict to the grids on which the source actually produces a slope map
(for smaller grids the 95th-percentile lookup indexes an empty vector and
panics). -/
theorem slope_flatness_maps_in_unit_interval (hm : Nat → Nat → ℝ) (w h : Nat)
    (hw : 2 < w) (hh : 2 < h) :
    (∀ y x, 0 ≤ calculate_slope_map hm w h y x ∧
      calculate_slope_map hm w h y x ≤ 1) ∧
    (∀ (max_slope : ℝ) (slope_map : Nat → Nat → ℝ) (radius y x : Nat),
      0 ≤ calculate_flatness_map max_slope slope_map radius w h y x ∧
      calculate_flatness_map max_slope slope_map radius w h y x ≤ 1) := by
  constructor
  · intro y x
    unfold calculate_slope_map
    split_ifs with h1 h2
    · exact ⟨zero_le_one, le_refl 1⟩
    · have hp : 0 < slopeP95 hm w h :=
        lt_of_le_of_ne (slopeP95_nonneg hm w h) (Ne.symm h2)
      constructor
      · exact le_min (div_nonneg (Real.sqrt_nonneg _) (le_of_lt hp)) zero_le_one
      · exact min_le_right _ _
    · exact ⟨le_refl 0, zero_le_one⟩
  · intro ms sm r y x
    rw [calculate_flatness_map_eval]
    split_ifs with h1
    · exact flatnessAt_range ms sm (by omega) (by omega)
    · exact ⟨le_refl 0, zero_le_one⟩

theorem slope_flatness_maps_witness :
    (0 ≤ calculate_slope_map (fun _ _ => 0) 3 3 1 1 ∧
      calculate_slope_map (fun _ _ => 0) 3 3 1 1 ≤ 1) ∧
    (0 ≤ calculate_flatness_map (1/5 : ℝ) (fun _ _ => 0) 1 3 3 1 1 ∧
      calculate_flatness_map (1/5 : ℝ) (fun _ _ => 0) 1 3 3 1 1 ≤ 1) := by
  have h := slope_flatness_maps_in_unit_interval (fun _ _ => 0) 3 3
    (by norm_num) (by norm_num)
  exact ⟨h.1 1 1, h.2 (1/5) (fun _ _ => 0) 1 1 1⟩

theorem countP_flatMap {β γ : Type} (l : List β) (f : β → List γ) (p : γ → Bool) :
    List.countP p (l.flatMap f) = (l.map fun b => List.countP p (f b)).sum := by
  induction l with
  | nil => simp
  | cons a t ih => simp [List.flatMap_cons, List.countP_append, ih]

theorem sum_indicator_le_one {l : List Nat} (hl : l.Nodup) (c : Nat)
    {g : Nat → Nat} (hg : ∀ x ∈ l, g x ≤ if x = c then 1 else 0) :
    (l.map g).sum ≤ 1 := by
  induction l with
  | nil => simp
  | cons a t ih =>
    rw [List.map_cons, List.sum_cons]
    by_cases ha : a = c
    · have hta : (t.map g).sum = 0 := by
        apply List.sum_eq_zero
        intro v hv
        rw [List.mem_map] at hv
        obtain ⟨x, hx, rfl⟩ := hv
        have hxc : x ≠ c := fun hxc => ((List.nodup_cons.mp hl).1)
          (by rw [ha, ← hxc] at *; exact hx)
        have := hg x (List.mem_cons_of_mem a hx)
        rw [if_neg hxc] at this
        omega
      have hga := hg a (List.mem_cons_self a t)
      rw [if_pos ha] at hga
      omega
    · have hga := hg a (List.mem_cons_self a t)
      rw [if_neg ha] at hga
      have := ih (List.nodup_cons.mp hl).2 (fun x hx => hg x (List.mem_cons_of_mem a hx))
      omega

theorem classifyCell_some {α : Type} [LinearOrderedField α]
    {cfg : EnemyPlacementConfig α} {ta : TerrainAnalysis α} {x y : Nat}
    {z : PlacementZone α} (hcl : classifyCell cfg ta x y = some z) :
    z.position = (x, y) ∧
    ta.river_analysis.exclusion_mask y x = false ∧
    ¬ (ta.river_analysis.distance_field y x < cfg.min_distance_from_river) := by
  unfold classifyCell at hcl
  split_ifs at hcl with h1 h2 h3 h4 h5
  · exact ⟨by rw [← (Option.some.injEq _ _).mp hcl], by simpa using h1, h2⟩
  · exact ⟨by rw [← (Option.some.injEq _ _).mp hcl], by simpa using h1, h2⟩
  · exact ⟨by rw [← (Option.some.injEq _ _).mp hcl], by simpa using h1, h2⟩

theorem mem_find_suitable_zones {α : Type} [LinearOrderedField α]
    (cfg : EnemyPlacementConfig α) (ta : TerrainAnalysis α) (w h : Nat)
    (z : PlacementZone α) :
    z ∈ find_suitable_zones cfg ta w h ↔
      ∃ y x, y ∈ List.range' 5 (h - 10) ∧ x ∈ List.range' 5 (w - 10) ∧
        classifyCell cfg ta x y = some z := by
  unfold find_suitable_zones
  rw [(List.perm_insertionSort _ _).mem_iff]
  simp only [List.mem_flatMap, Option.mem_toList, Option.mem_def]
  constructor
  · rintro ⟨y, hy, x, hx, hcl⟩
    exact ⟨y, x, hy, hx, hcl⟩
  · rintro ⟨y, x, hy, hx, hcl⟩
    exact ⟨y, hy, x, hx, hcl⟩

theorem find_suitable_zones_countP {α : Type} [LinearOrderedField α]
    (cfg : EnemyPlacementConfig α) (ta : TerrainAnalysis α) (w h : Nat)
    (c : Nat × Nat) :
    List.countP (fun z => decide (z.position = c)) (find_suitable_zones cfg ta w h) ≤ 1 := by
  unfold find_suitable_zones
  rw [(List.perm_insertionSort _ _).countP_eq]
  rw [countP_flatMap]
  apply sum_indicator_le_one (List.nodup_range' 5 (h - 10)) c.2
  intro y hy
  rw [countP_flatMap]
  have hinner : ∀ x ∈ List.range' 5 (w - 10),
      List.countP (fun z => decide (z.position = c)) ((classifyCell cfg ta x y).toList) ≤
        if x = c.1 ∧ y = c.2 then 1 else 0 := by
    intro x hx
    rcases hcl : classifyCell cfg ta x y with _ | z
    · simp
    · have hpos := (classifyCell_some hcl).1
      simp only [Option.toList_some, List.countP_cons, List.countP_nil, Nat.zero_add]
      by_cases hc : z.position = c
      · have hxyc : (x, y) = c := by rw [← hpos, hc]
        have hx1 : x = c.1 := by rw [← hxyc]
        have hy1 : y = c.2 := by rw [← hxyc]
        simp only [decide_eq_true_eq]
        rw [if_pos hc, if_pos (show x = c.1 ∧ y = c.2 from ⟨hx1, hy1⟩)]
      · rw [decide_eq_false hc]
        simp
  by_cases hyc : y = c.2
  · rw [if_pos hyc]
    apply sum_indicator_le_one (List.nodup_range' 5 (w - 10)) c.1
    intro x hx
    refine le_trans (hinner x hx) ?_
    by_cases hxc : x = c.1
    · rw [if_pos ⟨hxc, hyc⟩, if_pos hxc]
    · rw [if_neg (fun hc => hxc hc.1), if_neg hxc]
  · rw [if_neg hyc]
    have hallz : ∀ v ∈ (List.range' 5 (w - 10)).map
        (fun x => List.countP (fun z => decide (z.position = c))
          ((classifyCell cfg ta x y).toList)), v = 0 := by
      intro v hv
      rw [List.mem_map] at hv
      obtain ⟨x, hx, rfl⟩ := hv
      have := hinner x hx
      rw [if_neg (fun hc => hyc hc.2)] at this
      omega
    exact le_of_eq (List.sum_eq_zero hallz)

theorem classifyCell_eq_building {α : Type} [LinearOrderedField α]
    (cfg : EnemyPlacementConfig α) (ta : TerrainAnalysis α) (x y : Nat)
    (hexc : ta.river_analysis.exclusion_mask y x = false)
    (hrd : ¬ (ta.river_analysis.distance_field y x < cfg.min_distance_from_river))
    (hb : cfg.min_flat_area ≤ ta.building_flatness_map y x ∧
      ta.slope_map y x ≤ cfg.max_slope ∧ 20 < ta.river_analysis.distance_field y x) :
    classifyCell cfg ta x y = some
      { position := (x, y), zone_type := ZoneType.Building
        suitability_score := calculate_suitability_score cfg
          (ta.river_analysis.distance_field y x) (ta.slope_map y x)
          (ta.building_flatness_map y x) (ta.height_map y x) } := by
  unfold classifyCell
  rw [hexc, if_neg (by simp), if_neg hrd, if_pos hb]

theorem classifyCell_eq_tank {α : Type} [LinearOrderedField α]
    (cfg : EnemyPlacementConfig α) (ta : TerrainAnalysis α) (x y : Nat)
    (hexc : ta.river_analysis.exclusion_mask y x = false)
    (hrd : ¬ (ta.river_analysis.distance_field y x < cfg.min_distance_from_river))
    (hb : ¬ (cfg.min_flat_area ≤ ta.building_flatness_map y x ∧
      ta.slope_map y x ≤ cfg.max_slope ∧ 20 < ta.river_analysis.distance_field y x))
    (ht : cfg.min_flat_area ≤ ta.tank_flatness_map y x ∧
      ta.slope_map y x ≤ cfg.max_slope ∧ 15 < ta.river_analysis.distance_field y x) :
    classifyCell cfg ta x y = some
      { position := (x, y), zone_type := ZoneType.Tank
        suitability_score := calculate_suitability_score cfg
          (ta.river_analysis.distance_field y x) (ta.slope_map y x)
          (ta.tank_flatness_map y x) (ta.height_map y x) } := by
  unfold classifyCell
  rw [hexc, if_neg (by simp), if_neg hrd, if_neg hb, if_pos ht]

theorem classifyCell_eq_vehicle {α : Type} [LinearOrderedField α]
    (cfg : EnemyPlacementConfig α) (ta : TerrainAnalysis α) (x y : Nat)
    (hexc : ta.river_analysis.exclusion_mask y x = false)
    (hrd : ¬ (ta.river_analysis.distance_field y x < cfg.min_distance_from_river))
    (hb : ¬ (cfg.min_flat_area ≤ ta.building_flatness_map y x ∧
      ta.slope_map y x ≤ cfg.max_slope ∧ 20 < ta.river_analysis.distance_field y x))
    (ht : ¬ (cfg.min_flat_area ≤ ta.tank_flatness_map y x ∧
      ta.slope_map y x ≤ cfg.max_slope ∧ 15 < ta.river_analysis.distance_field y x))
    (hv : cfg.min_flat_area ≤ ta.vehicle_flatness_map y x ∧
      ta.slope_map y x ≤ cfg.max_slope) :
    classifyCell cfg ta x y = some
      { position := (x, y), zone_type := ZoneType.Vehicle
        suitability_score := calculate_suitability_score cfg
          (ta.river_analysis.distance_field y x) (ta.slope_map y x)
          (ta.vehicle_flatness_map y x) (ta.height_map y x) } := by
  unfold classifyCell
  rw [hexc, if_neg (by simp), if_neg hrd, if_neg hb, if_neg ht, if_pos hv]

theorem classifyCell_eq_none {α : Type} [LinearOrderedField α]
    (cfg : EnemyPlacementConfig α) (ta : TerrainAnalysis α) (x y : Nat)
    (hexc : ta.river_analysis.exclusion_mask y x = false)
    (hrd : ¬ (ta.river_analysis.distance_field y x < cfg.min_distance_from_river))
    (hb : ¬ (cfg.min_flat_area ≤ ta.building_flatness_map y x ∧
      ta.slope_map y x ≤ cfg.max_slope ∧ 20 < ta.river_analysis.distance_field y x))
    (ht : ¬ (cfg.min_flat_area ≤ ta.tank_flatness_map y x ∧
      ta.slope_map y x ≤ cfg.max_slope ∧ 15 < ta.river_analysis.distance_field y x))
    (hv : ¬ (cfg.min_flat_area ≤ ta.vehicle_flatness_map y x ∧
      ta.slope_map y x ≤ cfg.max_slope)) :
    classifyCell cfg ta x y = none := by
  unfold classifyCell
  rw [hexc, if_neg (by simp), if_neg hrd, if_neg hb, if_neg ht, if_neg hv]

/-- Claim C5: within the interior (margin 5), a cell passing the exclusion
and minimum-distance filters is assigned at most one zone, chosen by testing
Building, then Tank, then Vehicle, taking the first category whose
conditions hold; a cell for which none holds yields no zone. -/
theorem placement_zone_classification {α : Type} [LinearOrderedField α]
    (cfg : EnemyPlacementConfig α) (ta : TerrainAnalysis α) (w h : Nat)
    (hw : 5 ≤ w) (hh : 5 ≤ h) :
    (∀ c : Nat × Nat,
      List.countP (fun z => decide (z.position = c)) (find_suitable_zones cfg ta w h) ≤ 1) ∧
    (∀ z ∈ find_suitable_zones cfg ta w h,
      5 ≤ z.position.1 ∧ z.position.1 + 5 < w ∧ 5 ≤ z.position.2 ∧ z.position.2 + 5 < h ∧
      ta.river_analysis.exclusion_mask z.position.2 z.position.1 = false ∧
      ¬ (ta.river_analysis.distance_field z.position.2 z.position.1 <
          cfg.min_distance_from_river)) ∧
    (∀ x y : Nat, 5 ≤ x → x + 5 < w → 5 ≤ y → y + 5 < h →
      ta.river_analysis.exclusion_mask y x = false →
      ¬ (ta.river_analysis.distance_field y x < cfg.min_distance_from_river) →
      (((cfg.min_flat_area ≤ ta.building_flatness_map y x ∧
          ta.slope_map y x ≤ cfg.max_slope ∧
          20 < ta.river_analysis.distance_field y x) →
        ({ position := (x, y), zone_type := ZoneType.Building
           suitability_score := calculate_suitability_score cfg
             (ta.river_analysis.distance_field y x) (ta.slope_map y x)
             (ta.building_flatness_map y x) (ta.height_map y x) } : PlacementZone α) ∈
          find_suitable_zones cfg ta w h) ∧
       (¬ (cfg.min_flat_area ≤ ta.building_flatness_map y x ∧
          ta.slope_map y x ≤ cfg.max_slope ∧
          20 < ta.river_analysis.distance_field y x) →
        (cfg.min_flat_area ≤ ta.tank_flatness_map y x ∧
          ta.slope_map y x ≤ cfg.max_slope ∧
          15 < ta.river_analysis.distance_field y x) →
        ({ position := (x, y), zone_type := ZoneType.Tank
           suitability_score := calculate_suitability_score cfg
             (ta.river_analysis.distance_field y x) (ta.slope_map y x)
             (ta.tank_flatness_map y x) (ta.height_map y x) } : PlacementZone α) ∈
          find_suitable_zones cfg ta w h) ∧
       (¬ (cfg.min_flat_area ≤ ta.building_flatness_map y x ∧
          ta.slope_map y x ≤ cfg.max_slope ∧
          20 < ta.river_analysis.distance_field y x) →
        ¬ (cfg.min_flat_area ≤ ta.tank_flatness_map y x ∧
          ta.slope_map y x ≤ cfg.max_slope ∧
          15 < ta.river_analysis.distance_field y x) →
        (cfg.min_flat_area ≤ ta.vehicle_flatness_map y x ∧
          ta.slope_map y x ≤ cfg.max_slope) →
        ({ position := (x, y), zone_type := ZoneType.Vehicle
           suitability_score := calculate_suitability_score cfg
             (ta.river_analysis.distance_field y x) (ta.slope_map y x)
             (ta.vehicle_flatness_map y x) (ta.height_map y x) } : PlacementZone α) ∈
          find_suitable_zones cfg ta w h) ∧
       (¬ (cfg.min_flat_area ≤ ta.building_flatness_map y x ∧
          ta.slope_map y x ≤ cfg.max_slope ∧
          20 < ta.river_analysis.distance_field y x) →
        ¬ (cfg.min_flat_area ≤ ta.tank_flatness_map y x ∧
          ta.slope_map y x ≤ cfg.max_slope ∧
          15 < ta.river_analysis.distance_field y x) →
        ¬ (cfg.min_flat_area ≤ ta.vehicle_flatness_map y x ∧
          ta.slope_map y x ≤ cfg.max_slope) →
        ∀ z ∈ find_suitable_zones cfg ta w h, z.position ≠ (x, y)))) := by
  refine ⟨find_suitable_zones_countP cfg ta w h, ?_, ?_⟩
  · intro z hz
    obtain ⟨y, x, hy, hx, hcl⟩ := (mem_find_suitable_zones cfg ta w h z).mp hz
    obtain ⟨hpos, hexc, hrd⟩ := classifyCell_some hcl
    rw [List.mem_range'_1] at hy hx
    rw [hpos]
    exact ⟨hx.1, by omega, hy.1, by omega, hexc, hrd⟩
  · intro x y hx5 hxw hy5 hyh hexc hrd
    have hxm : x ∈ List.range' 5 (w - 10) := List.mem_range'_1.mpr ⟨hx5, by omega⟩
    have hym : y ∈ List.range' 5 (h - 10) := List.mem_range'_1.mpr ⟨hy5, by omega⟩
    refine ⟨?_, ?_, ?_, ?_⟩
    · intro hb
      exact (mem_find_suitable_zones cfg ta w h _).mpr
        ⟨y, x, hym, hxm, classifyCell_eq_building cfg ta x y hexc hrd hb⟩
    · intro hb ht
      exact (mem_find_suitable_zones cfg ta w h _).mpr
        ⟨y, x, hym, hxm, classifyCell_eq_tank cfg ta x y hexc hrd hb ht⟩
    · intro hb ht hv
      exact (mem_find_suitable_zones cfg ta w h _).mpr
        ⟨y, x, hym, hxm, classifyCell_eq_vehicle cfg ta x y hexc hrd hb ht hv⟩
    · intro hb ht hv z hz heq
      obtain ⟨y', x', hy', hx', hcl⟩ := (mem_find_suitable_zones cfg ta w h z).mp hz
      have hpos := (classifyCell_some hcl).1
      have hxy : (x', y') = (x, y) := by rw [← hpos, heq]
      have hx'e : x' = x := congrArg Prod.fst hxy
      have hy'e : y' = y := congrArg Prod.snd hxy
      rw [hx'e, hy'e, classifyCell_eq_none cfg ta x y hexc hrd hb ht hv] at hcl
      exact absurd hcl (by simp)

/-- A concrete terrain analysis over `ℚ` with constant maps: slope `0.1`,
all flatness `0.8`, height `0.5`, river distance `32`, nothing excluded. -/
def taQ : TerrainAnalysis ℚ :=
  { height_map := fun _ _ => 1/2
    slope_map := fun _ _ => 1/10
    building_flatness_map := fun _ _ => 8/10
    tank_flatness_map := fun _ _ => 8/10
    vehicle_flatness_map := fun _ _ => 8/10
    river_analysis :=
      { distance_field := fun _ _ => 32
        water_mask := fun _ _ => false
        exclusion_mask := fun _ _ => false } }

theorem placement_zone_classification_witness :
    List.countP (fun z => decide (z.position = ((5, 5) : Nat × Nat)))
      (find_suitable_zones cfgQ taQ 11 11) ≤ 1 ∧
    ({ position := (5, 5), zone_type := ZoneType.Building
       suitability_score := calculate_suitability_score cfgQ 32 (1/10) (8/10) (1/2) } :
      PlacementZone ℚ) ∈ find_suitable_zones cfgQ taQ 11 11 := by
  have h := placement_zone_classification cfgQ taQ 11 11 (by norm_num) (by norm_num)
  refine ⟨h.1 (5, 5), ?_⟩
  exact (h.2.2 5 5 (by norm_num) (by norm_num) (by norm_num) (by norm_num) rfl
    (by norm_num [taQ, cfgQ])).1 (by norm_num [taQ, cfgQ])

/-- The score formula as the specification states it (slope term `1 − slope`
rather than the source's `1 − slope/max_slope`). -/
def claimedSuitabilityScore {α : Type} [LinearOrderedField α]
    (cfg : EnemyPlacementConfig α) (river_distance slope flatness height : α) : α :=
  ((river_distance - cfg.min_distance_from_river) / 20) * (25/100) +
    (1 - slope) * (3/10) + flatness * (3/10) + (min height 1) * (15/100)

/-- Claim C4 counterexample: a cell accepted as a Building zone whose score,
`0.715`, differs from the value `0.835` of the claimed formula at that
cell's data (slope `0.1`, `max_slope` `0.2`). -/
theorem suitability_score_counterexample :
    (({ position := (5, 5), zone_type := ZoneType.Building
        suitability_score := 143/200 } : PlacementZone ℚ) ∈
      find_suitable_zones cfgQ taQ 11 11) ∧
    (143/200 : ℚ) ≠ claimedSuitabilityScore cfgQ 32 (1/10) (8/10) (1/2) := by
  constructor
  · apply (mem_find_suitable_zones cfgQ taQ 11 11 _).mpr
    refine ⟨5, 5, List.mem_range'_1.mpr (by norm_num),
      List.mem_range'_1.mpr (by norm_num), ?_⟩
    rw [classifyCell_eq_building cfgQ taQ 5 5 rfl (by norm_num [taQ, cfgQ])
      (by norm_num [taQ, cfgQ])]
    simp only [Option.some.injEq, PlacementZone.mk.injEq]
    norm_num [calculate_suitability_score, taQ, cfgQ, min_def]
  · norm_num [claimedSuitabilityScore, cfgQ, min_def]

/-- Selects the flatness map used for a zone of the given type. -/
def flatnessForZone {α : Type} (ta : TerrainAnalysis α) :
    ZoneType → Nat → Nat → α
  | ZoneType.Building => ta.building_flatness_map
  | ZoneType.Tank => ta.tank_flatness_map
  | ZoneType.Vehicle => ta.vehicle_flatness_map

/-- Claim C4 (amended): every accepted cell's suitability score equals
`0.25·((river_distance − min_distance_from_river)/20) +
0.30·(1 − slope/max_slope) + 0.30·flatness + 0.15·min(height, 1)`,
with the flatness value of the zone's own type (the claim had `1 − slope`
for the slope term; the source divides by `max_slope`). -/
theorem zone_score_formula {α : Type} [LinearOrderedField α]
    (cfg : EnemyPlacementConfig α) (ta : TerrainAnalysis α) (w h : Nat)
    (z : PlacementZone α) (hz : z ∈ find_suitable_zones cfg ta w h) :
    z.suitability_score =
      ((ta.river_analysis.distance_field z.position.2 z.position.1 -
          cfg.min_distance_from_river) / 20) * (25/100) +
        (1 - ta.slope_map z.position.2 z.position.1 / cfg.max_slope) * (3/10) +
        flatnessForZone ta z.zone_type z.position.2 z.position.1 * (3/10) +
        min (ta.height_map z.position.2 z.position.1) 1 * (15/100) := by
  obtain ⟨y, x, hy, hx, hcl⟩ := (mem_find_suitable_zones cfg ta w h z).mp hz
  unfold classifyCell at hcl
  split_ifs at hcl with h1 h2 h3 h4 h5 <;>
    (obtain rfl := (Option.some.injEq _ _).mp hcl
     simp only [calculate_suitability_score, flatnessForZone]
     try ring)

/-- The concrete Building zone accepted at cell `(5, 5)` of `taQ`. -/
def zoneB5 : PlacementZone ℚ :=
  { position := (5, 5)
    zone_type := ZoneType.Building
    suitability_score := calculate_suitability_score cfgQ 32 (1/10) (8/10) (1/2) }

theorem zone_score_formula_witness :
    zoneB5 ∈ find_suitable_zones cfgQ taQ 11 11 ∧
    zoneB5.suitability_score =
      ((32 - cfgQ.min_distance_from_river) / 20) * (25/100) +
        (1 - (1/10) / cfgQ.max_slope) * (3/10) + (8/10) * (3/10) +
        min (1/2 : ℚ) 1 * (15/100) := by
  have hmem : zoneB5 ∈ find_suitable_zones cfgQ taQ 11 11 :=
    (mem_find_suitable_zones cfgQ taQ 11 11 _).mpr
      ⟨5, 5, List.mem_range'_1.mpr (by norm_num), List.mem_range'_1.mpr (by norm_num),
        classifyCell_eq_building cfgQ taQ 5 5 rfl (by norm_num [taQ, cfgQ])
          (by norm_num [taQ, cfgQ])⟩
  exact ⟨hmem, zone_score_formula cfgQ taQ 11 11 zoneB5 hmem⟩

/-- Two-dimensional `f32` vectors (`bevy`'s `Vec2`), modelled over `ℝ`. -/
structure Vec2 where
  x : ℝ
  y : ℝ

noncomputable def Vec2.length (v : Vec2) : ℝ :=
  Real.sqrt (v.x * v.x + v.y * v.y)

/-- `glam`'s `normalize` (`self * self.length().recip()`). A zero-length
input yields NaN components in `f32`; that degenerate case is modelled
separately (`normalizeF`) for the error-handling claim. -/
noncomputable def Vec2.normalize (v : Vec2) : Vec2 :=
  ⟨v.x / v.length, v.y / v.length⟩

noncomputable def Vec2.dot (a b : Vec2) : ℝ := a.x * b.x + a.y * b.y

noncomputable def Vec2.sub (a b : Vec2) : Vec2 := ⟨a.x - b.x, a.y - b.y⟩

noncomputable def Vec2.add (a b : Vec2) : Vec2 := ⟨a.x + b.x, a.y + b.y⟩

noncomputable def Vec2.smul (v : Vec2) (s : ℝ) : Vec2 := ⟨v.x * s, v.y * s⟩

noncomputable def Vec2.distance (a b : Vec2) : ℝ := (a.sub b).length

/-- `HeightmapConfig` from `height_map_generator.rs` (the `seed` field is
absorbed into the abstract noise bank below). -/
structure HeightmapConfig where
  width : Nat
  height : Nat
  scale : ℝ
  terrain_amplitude : ℝ
  river_width : ℝ
  river_depth : ℝ
  bank_slope_distance : ℝ
  meander_frequency : ℝ
  meander_amplitude : ℝ
  meander_chaos : ℝ
  meander_scale_variation : ℝ
  flow_irregularity : ℝ
  domain_warp_strength : ℝ
  erosion_strength : ℝ
  erosion_radius : ℝ
  valley_flattening : ℝ
  erosion_smoothing : ℝ
  flat_area_radius : ℝ
  flat_area_strength : ℝ
  flat_area_frequency : ℝ
  hill_steepness : ℝ
  terrain_roughness : ℝ
  river_start : Vec2
  river_direction : Vec2

/-- `HeightmapNoise`: the bank of seeded generators of the external `noise`
crate, modelled as an abstract family of samplers `ℝ → ℝ → ℝ` (each
`gen.get([a, b])` becomes `gen a b`). -/
structure HeightmapNoise where
  terrain_base : ℝ → ℝ → ℝ
  terrain_detail : ℝ → ℝ → ℝ
  domain_warp_x : ℝ → ℝ → ℝ
  domain_warp_y : ℝ → ℝ → ℝ
  river_primary_meander : ℝ → ℝ → ℝ
  river_chaos_noise : ℝ → ℝ → ℝ
  river_scale_noise : ℝ → ℝ → ℝ
  river_width_noise : ℝ → ℝ → ℝ
  flat_area_noise : ℝ → ℝ → ℝ
  hill_noise : ℝ → ℝ → ℝ

/-- `calculate_river_profile`: flat `-river_depth` inside the channel,
a blended cubic/sine/cosine bank profile, `0` beyond the bank. -/
noncomputable def calculate_river_profile (cfg : HeightmapConfig)
    (distance_to_river river_width : ℝ) : ℝ :=
  let water_edge := river_width * 0.5
  let bank_end := water_edge + cfg.bank_slope_distance
  if distance_to_river ≤ water_edge then -cfg.river_depth
  else if distance_to_river ≤ bank_end then
    let bank_progress := (distance_to_river - water_edge) / cfg.bank_slope_distance
    let smooth1 := 1 - bank_progress ^ 3
    let smooth2 := Real.sin ((1 - bank_progress) * Real.pi * 0.5)
    let smooth3 := (1 + Real.cos (bank_progress * Real.pi)) * 0.5
    let combined_smooth := smooth1 * 0.5 + smooth2 * 0.3 + smooth3 * 0.2;
    -cfg.river_depth * combined_smooth
  else 0

/-- `calculate_erosion_factor`: maximum strength in the channel, quadratic
falloff across `erosion_radius`, zero beyond. -/
noncomputable def calculate_erosion_factor (cfg : HeightmapConfig)
    (distance_to_river river_width : ℝ) : ℝ :=
  let water_edge := river_width * 0.5
  let erosion_end := water_edge + cfg.erosion_radius
  if distance_to_river ≤ water_edge then cfg.erosion_strength
  else if distance_to_river ≤ erosion_end then
    let erosion_progress := (distance_to_river - water_edge) / cfg.erosion_radius
    cfg.erosion_strength * (1 - erosion_progress) ^ 2
  else 0

/-- `calculate_realistic_meander`: primary and secondary sine waves plus
chaos, scale-variation and asymmetry noise, all sampled along the flow
axis only (`TAU` is written `2 * π`). -/
noncomputable def calculate_realistic_meander (noise : HeightmapNoise)
    (cfg : HeightmapConfig) (distance_along_river : ℝ) : ℝ :=
  let meander_phase := distance_along_river * cfg.meander_frequency
  let primary_meander := Real.sin (meander_phase * (2 * Real.pi))
  let secondary_phase := distance_along_river * cfg.meander_frequency * 1.7
  let secondary_meander := Real.sin (secondary_phase * (2 * Real.pi)) * 0.4
  let chaos_variation := noise.river_chaos_noise (distance_along_river * 0.001) 0
  let scale_variation := noise.river_scale_noise (distance_along_river * 0.0003) 0
  let scale_factor := 1 + scale_variation * cfg.meander_scale_variation
  let asymmetry := noise.river_primary_meander (meander_phase * 0.8) 1000
  let base_meander := primary_meander * 0.7 + secondary_meander * 0.3
  let chaotic_component := chaos_variation * cfg.meander_chaos * 0.5
  let asymmetric_component := asymmetry * 0.2
  (base_meander + chaotic_component + asymmetric_component) * scale_factor *
    cfg.meander_amplitude

/-- The projection of `position - river_start` onto the normalized river
direction (`distance_along_river` in `calculate_river_effects`). -/
noncomputable def riverDistanceAlong (cfg : HeightmapConfig) (position : Vec2) : ℝ :=
  (position.sub cfg.river_start).dot cfg.river_direction.normalize

/-- The meandering river centerline at the flow coordinate of `position`. -/
noncomputable def riverCenter (noise : HeightmapNoise) (cfg : HeightmapConfig)
    (position : Vec2) : Vec2 :=
  let s := riverDistanceAlong cfg position
  let dirn := cfg.river_direction.normalize
  let perpendicular : Vec2 := ⟨-dirn.y, dirn.x⟩
  (cfg.river_start.add (dirn.smul s)).add
    (perpendicular.smul (calculate_realistic_meander noise cfg s))

/-- `distance_to_river` in `calculate_river_effects`. -/
noncomputable def riverDistanceTo (noise : HeightmapNoise) (cfg : HeightmapConfig)
    (position : Vec2) : ℝ :=
  position.distance (riverCenter noise cfg position)

/-- `actual_river_width` in `calculate_river_effects`: the configured width
jittered by the width-noise sample along the flow axis. -/
noncomputable def riverActualWidth (noise : HeightmapNoise) (cfg : HeightmapConfig)
    (position : Vec2) : ℝ :=
  cfg.river_width *
    (1 + noise.river_width_noise (riverDistanceAlong cfg position * 0.0005) 0 * 0.3)

/-- `calculate_river_effects`: the pair `(river_carving, erosion_factor)`. -/
noncomputable def calculate_river_effects (noise : HeightmapNoise)
    (cfg : HeightmapConfig) (position : Vec2) : ℝ × ℝ :=
  (calculate_river_profile cfg (riverDistanceTo noise cfg position)
      (riverActualWidth noise cfg position),
   calculate_erosion_factor cfg (riverDistanceTo noise cfg position)
      (riverActualWidth noise cfg position))

/-- `sample_terrain_height`: plain base + detail terrain (used by the
erosion smoothing pass). -/
noncomputable def sample_terrain_height (noise : HeightmapNoise)
    (cfg : HeightmapConfig) (x z : ℝ) : ℝ :=
  let base := noise.terrain_base (x * cfg.scale) (z * cfg.scale)
  let detail := noise.terrain_detail (x * 0.05) (z * 0.05) * 0.1
  (base + detail) * cfg.terrain_amplitude

/-- `calculate_flat_area_mask`: threshold the flat-area noise at `0.6`, then
average 8 radial samples for a smooth disc falloff and clamp to `[0, 1]`. -/
noncomputable def calculate_flat_area_mask (noise : HeightmapNoise)
    (cfg : HeightmapConfig) (x z : ℝ) : ℝ :=
  let flat_center_value :=
    noise.flat_area_noise (x * cfg.flat_area_frequency) (z * cfg.flat_area_frequency)
  if 0.6 < flat_center_value then
    let total_flatness :=
      ((List.range 8).map fun i =>
        let angle := ((i : ℝ) / 8) * (2 * Real.pi)
        noise.flat_area_noise
          ((x + Real.cos angle * cfg.flat_area_radius * 0.5) * cfg.flat_area_frequency)
          ((z + Real.sin angle * cfg.flat_area_radius * 0.5) * cfg.flat_area_frequency)).sum
    let avg_flatness := total_flatness / 8
    let distance_factor := 1 - (flat_center_value - 0.6) / 0.4
    let flat_strength := avg_flatness * distance_factor * cfg.flat_area_strength
    min (max flat_strength 0) 1
  else 0

/-- `sample_enhanced_terrain_height`: hill-shaped base noise
(`|n|^hill_steepness * signum n`; `f32::signum 0 = 1` while `Real.sign 0 = 0`,
but both give a zero product for positive exponents), hill detail, fine
detail, flat-area blending. -/
noncomputable def sample_enhanced_terrain_height (noise : HeightmapNoise)
    (cfg : HeightmapConfig) (x z : ℝ) : ℝ :=
  let base0 := noise.terrain_base (x * cfg.scale) (z * cfg.scale)
  let base := |base0| ^ cfg.hill_steepness * Real.sign base0
  let hill_detail :=
    noise.hill_noise (x * cfg.scale * 2) (z * cfg.scale * 2) * 0.3 * cfg.terrain_roughness
  let detail := noise.terrain_detail (x * 0.05) (z * 0.05) * 0.1 * cfg.terrain_roughness
  let flat_mask := calculate_flat_area_mask noise cfg x z
  let enhanced_terrain := (base + hill_detail + detail) * cfg.terrain_amplitude
  enhanced_terrain * (1 - flat_mask) + (enhanced_terrain * 0.3) * flat_mask

/-- `calculate_valley_floor_height`: low-frequency terrain plus a gentle
slope along the flow direction. -/
noncomputable def calculate_valley_floor_height (noise : HeightmapNoise)
    (cfg : HeightmapConfig) (position : Vec2) : ℝ :=
  let valley_base :=
    noise.terrain_base (position.x * cfg.scale * 0.3) (position.y * cfg.scale * 0.3)
  let distance_along_river := (position.sub cfg.river_start).dot cfg.river_direction.normalize
  let river_slope := distance_along_river * 0.001
  valley_base * cfg.terrain_amplitude * 0.3 + river_slope

/-- `apply_terrain_smoothing`: average the height with 4 radial terrain
samples (radius 2) and blend by `erosion_smoothing * erosion_factor`. -/
noncomputable def apply_terrain_smoothing (noise : HeightmapNoise)
    (cfg : HeightmapConfig) (height : ℝ) (position : Vec2) (erosion_factor : ℝ) : ℝ :=
  let smoothing_strength := cfg.erosion_smoothing * erosion_factor
  let sample_radius : ℝ := 2
  let height_sum := height +
    ((List.range 4).map fun i =>
      let angle := ((i : ℝ) / 4) * (2 * Real.pi)
      sample_terrain_height noise cfg (position.x + Real.cos angle * sample_radius)
        (position.y + Real.sin angle * sample_radius)).sum
  let averaged_height := height_sum / 5
  height * (1 - smoothing_strength) + averaged_height * smoothing_strength

/-- `apply_erosion_effects`: blend toward the valley floor and smooth,
scaled by the erosion factor; no-op when the factor is `≤ 0`. -/
noncomputable def apply_erosion_effects (noise : HeightmapNoise)
    (cfg : HeightmapConfig) (base_height : ℝ) (position : Vec2)
    (erosion_factor : ℝ) : ℝ :=
  if erosion_factor ≤ 0 then base_height
  else
    let valley_target_height := calculate_valley_floor_height noise cfg position
    let flattened_height :=
      base_height * (1 - cfg.valley_flattening * erosion_factor) +
        valley_target_height * cfg.valley_flattening * erosion_factor
    apply_terrain_smoothing noise cfg flattened_height position erosion_factor

/-- `sample_height_with_river`: domain-warped enhanced terrain, eroded, plus
the river carve offset (the river geometry uses the unwarped position). -/
noncomputable def sample_height_with_river (noise : HeightmapNoise)
    (cfg : HeightmapConfig) (x z : ℝ) : ℝ :=
  let warp_x := noise.domain_warp_x (x * 0.003) (z * 0.003) * cfg.domain_warp_strength
  let warp_z := noise.domain_warp_y (x * 0.003) (z * 0.003) * cfg.domain_warp_strength
  let base_terrain_height :=
    sample_enhanced_terrain_height noise cfg (x + warp_x) (z + warp_z)
  let effects := calculate_river_effects noise cfg ⟨x, z⟩
  apply_erosion_effects noise cfg base_terrain_height ⟨x, z⟩ effects.2 + effects.1

/-- `generate_heightmap`: sample the height field over the configured grid
(world size 512, pixel-to-world scale `512 / width`). -/
noncomputable def generate_heightmap (noise : HeightmapNoise)
    (cfg : HeightmapConfig) : Nat → Nat → ℝ :=
  fun y x =>
    let pixel_to_world := 512 / (cfg.width : ℝ)
    sample_height_with_river noise cfg
      (((x : ℝ) - (cfg.width : ℝ) * 0.5) * pixel_to_world)
      (((y : ℝ) - (cfg.height : ℝ) * 0.5) * pixel_to_world)

/-- The water classification of `create_terrain_mesh_from_heightmap` in
`height_map_renderer.rs`: a vertex is water when the river carve
contribution is more negative than `-0.7`. -/
def isWaterVertex (noise : HeightmapNoise) (cfg : HeightmapConfig)
    (position : Vec2) : Prop :=
  (calculate_river_effects noise cfg position).1 < -0.7

/-- The `Default` values of `HeightmapConfig` in the source. -/
noncomputable def cfgR : HeightmapConfig :=
  { width := 1024
    height := 1024
    scale := 0.005
    terrain_amplitude := 50
    river_width := 20
    river_depth := 8
    bank_slope_distance := 80
    meander_frequency := 0.008
    meander_amplitude := 40
    meander_chaos := 0.6
    meander_scale_variation := 0.4
    flow_irregularity := 0.3
    domain_warp_strength := 25
    erosion_strength := 0.8
    erosion_radius := 120
    valley_flattening := 0.7
    erosion_smoothing := 0.6
    flat_area_radius := 100
    flat_area_strength := 0.8
    flat_area_frequency := 0.002
    hill_steepness := 1.2
    terrain_roughness := 0.5
    river_start := ⟨-256, 0⟩
    river_direction := ⟨1, 0.1⟩ }

/-- A noise bank whose samplers are all identically zero. -/
def noiseZero : HeightmapNoise :=
  { terrain_base := fun _ _ => 0
    terrain_detail := fun _ _ => 0
    domain_warp_x := fun _ _ => 0
    domain_warp_y := fun _ _ => 0
    river_primary_meander := fun _ _ => 0
    river_chaos_noise := fun _ _ => 0
    river_scale_noise := fun _ _ => 0
    river_width_noise := fun _ _ => 0
    flat_area_noise := fun _ _ => 0
    hill_noise := fun _ _ => 0 }

/-- The bank blend as the specification describes it:
`0.5·(1 − p³) + 0.3·sin((1 − p)·π/2) + 0.2·(1 + cos(p·π))/2`. -/
noncomputable def bankBlend (p : ℝ) : ℝ :=
  0.5 * (1 - p ^ 3) + 0.3 * Real.sin ((1 - p) * (Real.pi / 2)) +
    0.2 * ((1 + Real.cos (p * Real.pi)) / 2)

/-- Claim C2: the carve offset is `-river_depth` up to `w/2`,
`-river_depth · blend(p)` with `p = (d − w/2)/bank_slope_distance` on the
bank band, and `0` beyond; the blend is `1` at `p = 0` and `0` at `p = 1`,
so the profile is continuous at both band edges. The hypothesis
`0 ≤ bank_slope_distance` is the spec's config invariant (all radii
non-negative). -/
theorem river_profile_piecewise (cfg : HeightmapConfig) (d w : ℝ)
    (hd : 0 ≤ d) (hw : 0 ≤ w) (hbsd : 0 ≤ cfg.bank_slope_distance) :
    (d ≤ w / 2 → calculate_river_profile cfg d w = -cfg.river_depth) ∧
    (w / 2 < d → d ≤ w / 2 + cfg.bank_slope_distance →
      calculate_river_profile cfg d w =
        -cfg.river_depth * bankBlend ((d - w / 2) / cfg.bank_slope_distance)) ∧
    (w / 2 + cfg.bank_slope_distance < d → calculate_river_profile cfg d w = 0) ∧
    bankBlend 0 = 1 ∧ bankBlend 1 = 0 := by
  have hwe : w * (0.5 : ℝ) = w / 2 := by ring
  refine ⟨?_, ?_, ?_, ?_, ?_⟩
  · intro h
    simp only [calculate_river_profile]
    rw [if_pos (show d ≤ w * (0.5:ℝ) by rw [hwe]; exact h)]
  · intro h1 h2
    simp only [calculate_river_profile]
    rw [if_neg (show ¬ d ≤ w * (0.5:ℝ) by rw [hwe]; exact not_le.mpr h1),
      if_pos (show d ≤ w * (0.5:ℝ) + cfg.bank_slope_distance by rw [hwe]; exact h2)]
    unfold bankBlend
    rw [show (1 - (d - w * (0.5:ℝ)) / cfg.bank_slope_distance) * Real.pi * (0.5:ℝ) =
        (1 - (d - w / 2) / cfg.bank_slope_distance) * (Real.pi / 2) by ring,
      show (d - w * (0.5:ℝ)) / cfg.bank_slope_distance * Real.pi =
        (d - w / 2) / cfg.bank_slope_distance * Real.pi by ring]
    ring
  · intro h
    simp only [calculate_river_profile]
    rw [if_neg (show ¬ d ≤ w * (0.5:ℝ) by rw [hwe]; push_neg; linarith),
      if_neg (show ¬ d ≤ w * (0.5:ℝ) + cfg.bank_slope_distance by
        rw [hwe]; push_neg; linarith)]
  · unfold bankBlend
    rw [show ((1:ℝ) - 0) * (Real.pi / 2) = Real.pi / 2 by ring,
      show ((0:ℝ) * Real.pi) = 0 by ring, Real.sin_pi_div_two, Real.cos_zero]
    norm_num
  · unfold bankBlend
    rw [show ((1:ℝ) - 1) * (Real.pi / 2) = 0 by ring,
      show ((1:ℝ) * Real.pi) = Real.pi by ring, Real.sin_zero, Real.cos_pi]
    norm_num

theorem river_profile_piecewise_witness :
    calculate_river_profile cfgR 1 4 = -cfgR.river_depth ∧
    bankBlend 0 = 1 ∧ bankBlend 1 = 0 := by
  have h := river_profile_piecewise cfgR 1 4 (by norm_num) (by norm_num)
    (by norm_num [cfgR])
  exact ⟨h.1 (by norm_num), h.2.2.2.1, h.2.2.2.2⟩

/-- The carve profile is bounded below: it never drops under `-river_depth`
(for non-negative depth), and never reaches `-0.7` when
`river_depth < 0.7`. -/
theorem river_profile_lower_bound (cfg : HeightmapConfig) (d w : ℝ) :
    (0 ≤ cfg.river_depth → -cfg.river_depth ≤ calculate_river_profile cfg d w) ∧
    (cfg.river_depth < 0.7 → -(0.7:ℝ) < calculate_river_profile cfg d w) := by
  simp only [calculate_river_profile]
  split_ifs with h1 h2
  · exact ⟨fun _ => le_refl _, fun h => by linarith⟩
  · set p := (d - w * 0.5) / cfg.bank_slope_distance with hp
    have hbsd : 0 < cfg.bank_slope_distance := by
      by_contra hc
      push_neg at hc
      push_neg at h1
      linarith
    have hppos : 0 < p := div_pos (by push_neg at h1; linarith) hbsd
    have hple : p ≤ 1 := by
      rw [hp, div_le_one hbsd]
      linarith
    have hp3le : p ^ 3 ≤ 1 := pow_le_one₀ (le_of_lt hppos) hple
    have hp3pos : 0 < p ^ 3 := pow_pos hppos 3
    have hs1a : 0 ≤ 1 - p ^ 3 := by linarith
    have hs1b : 1 - p ^ 3 ≤ 1 := by linarith
    have hargnn : 0 ≤ (1 - p) * Real.pi * 0.5 := by
      have := Real.pi_pos
      nlinarith
    have hargle : (1 - p) * Real.pi * 0.5 ≤ Real.pi := by
      have := Real.pi_pos
      nlinarith
    have hs2a : 0 ≤ Real.sin ((1 - p) * Real.pi * 0.5) :=
      Real.sin_nonneg_of_nonneg_of_le_pi hargnn hargle
    have hs2b : Real.sin ((1 - p) * Real.pi * 0.5) ≤ 1 := Real.sin_le_one _
    have hs3a : 0 ≤ (1 + Real.cos (p * Real.pi)) * 0.5 := by
      have := Real.neg_one_le_cos (p * Real.pi)
      nlinarith
    have hs3b : (1 + Real.cos (p * Real.pi)) * 0.5 ≤ 1 := by
      have := Real.cos_le_one (p * Real.pi)
      nlinarith
    have hca : 0 ≤ (1 - p ^ 3) * 0.5 + Real.sin ((1 - p) * Real.pi * 0.5) * 0.3 +
        (1 + Real.cos (p * Real.pi)) * 0.5 * 0.2 := by nlinarith
    have hcb : (1 - p ^ 3) * 0.5 + Real.sin ((1 - p) * Real.pi * 0.5) * 0.3 +
        (1 + Real.cos (p * Real.pi)) * 0.5 * 0.2 ≤ 1 := by nlinarith
    constructor
    · intro hdep
      nlinarith
    · intro hdep
      rcases le_or_lt 0 cfg.river_depth with hl | hl
      · nlinarith
      · nlinarith
  · constructor
    · intro hdep
      linarith
    · intro _
      norm_num

/-- Claim C3: a mesh vertex is classified as water exactly when the river
carve contribution is more negative than the fixed `-0.7` threshold; the
carve never goes below `-river_depth` (for non-negative depth), so for
every config with `river_depth < 0.7` no vertex is ever water. -/
theorem water_classification (noise : HeightmapNoise) (cfg : HeightmapConfig)
    (position : Vec2) :
    (isWaterVertex noise cfg position ↔
      (calculate_river_effects noise cfg position).1 < -0.7) ∧
    (0 ≤ cfg.river_depth →
      -cfg.river_depth ≤ (calculate_river_effects noise cfg position).1) ∧
    (cfg.river_depth < 0.7 → ¬ isWaterVertex noise cfg position) := by
  have h := river_profile_lower_bound cfg (riverDistanceTo noise cfg position)
    (riverActualWidth noise cfg position)
  exact ⟨Iff.rfl, h.1, fun hdep hw => absurd hw (not_lt.mpr (le_of_lt (h.2 hdep)))⟩

/-- A shallow-river config: the default values with `river_depth = 0.5`. -/
noncomputable def cfgShallow : HeightmapConfig := { cfgR with river_depth := 1/2 }

theorem water_classification_witness :
    (0:ℝ) ≤ cfgShallow.river_depth ∧
    -cfgShallow.river_depth ≤ (calculate_river_effects noiseZero cfgShallow ⟨0, 0⟩).1 ∧
    ¬ isWaterVertex noiseZero cfgShallow ⟨0, 0⟩ := by
  have h := water_classification noiseZero cfgShallow ⟨0, 0⟩
  exact ⟨by norm_num [cfgShallow], h.2.1 (by norm_num [cfgShallow]),
    h.2.2 (by norm_num [cfgShallow])⟩

/-- Claim C7: at `river_start` the flow coordinate is `s = 0`, where both
meander sine terms vanish, and the chaos, asymmetry and width-jitter
generators are sampled at the points `(0, 0)`, `(0, 1000)` and `(0, 0)` —
integer lattice points, at which the source's `Fbm<OpenSimplex>` and
`Perlin` generators are exactly `0` for every seed (stated here as the
hypotheses on the abstract noise bank). Hence the lateral meander offset is
`0`, `river_start` lies on the centerline with `distance_to_river = 0`, the
carve equals exactly `-river_depth` (the width jitter leaves
`actual_river_width = river_width ≥ 0`, the spec's config invariant), and
the sampled height equals the erosion-adjusted base terrain minus
`river_depth` — the carve contribution is exactly `-river_depth`, within
any bank-profile tolerance. -/
theorem river_start_carve (noise : HeightmapNoise) (cfg : HeightmapConfig)
    (hdir : cfg.river_direction.length ≠ 0)
    (hchaos : noise.river_chaos_noise 0 0 = 0)
    (hasym : noise.river_primary_meander 0 1000 = 0)
    (hwn : noise.river_width_noise 0 0 = 0)
    (hrw : 0 ≤ cfg.river_width) :
    riverDistanceTo noise cfg cfg.river_start = 0 ∧
    (calculate_river_effects noise cfg cfg.river_start).1 = -cfg.river_depth ∧
    sample_height_with_river noise cfg cfg.river_start.x cfg.river_start.y =
      apply_erosion_effects noise cfg
        (sample_enhanced_terrain_height noise cfg
          (cfg.river_start.x +
            noise.domain_warp_x (cfg.river_start.x * 0.003) (cfg.river_start.y * 0.003) *
              cfg.domain_warp_strength)
          (cfg.river_start.y +
            noise.domain_warp_y (cfg.river_start.x * 0.003) (cfg.river_start.y * 0.003) *
              cfg.domain_warp_strength))
        cfg.river_start (calculate_river_effects noise cfg cfg.river_start).2 -
        cfg.river_depth := by
  have hsub : cfg.river_start.sub cfg.river_start = ⟨0, 0⟩ := by
    unfold Vec2.sub
    simp
  have hs : riverDistanceAlong cfg cfg.river_start = 0 := by
    unfold riverDistanceAlong
    rw [hsub]
    unfold Vec2.dot
    simp
  have hme : calculate_realistic_meander noise cfg 0 = 0 := by
    simp [calculate_realistic_meander, hchaos, hasym]
  have hcenter : riverCenter noise cfg cfg.river_start = cfg.river_start := by
    simp only [riverCenter]
    rw [hs, hme]
    unfold Vec2.add Vec2.smul
    simp
  have hd0 : riverDistanceTo noise cfg cfg.river_start = 0 := by
    unfold riverDistanceTo Vec2.distance
    rw [hcenter, hsub]
    unfold Vec2.length
    simp
  have hweq : riverActualWidth noise cfg cfg.river_start = cfg.river_width := by
    unfold riverActualWidth
    rw [hs]
    norm_num [hwn]
  have hcarve : (calculate_river_effects noise cfg cfg.river_start).1 =
      -cfg.river_depth := by
    show calculate_river_profile cfg (riverDistanceTo noise cfg cfg.river_start)
      (riverActualWidth noise cfg cfg.river_start) = -cfg.river_depth
    rw [hd0, hweq]
    simp only [calculate_river_profile]
    rw [if_pos (mul_nonneg hrw (by norm_num : (0:ℝ) ≤ 0.5))]
  refine ⟨hd0, hcarve, ?_⟩
  simp only [sample_height_with_river]
  have heta : (⟨cfg.river_start.x, cfg.river_start.y⟩ : Vec2) = cfg.river_start := rfl
  rw [heta, hcarve]
  ring

theorem river_start_carve_witness :
    cfgR.river_direction.length ≠ 0 ∧ (0:ℝ) ≤ cfgR.river_width ∧
    riverDistanceTo noiseZero cfgR cfgR.river_start = 0 ∧
    (calculate_river_effects noiseZero cfgR cfgR.river_start).1 =
      -cfgR.river_depth := by
  have hdir : cfgR.river_direction.length ≠ 0 := by
    show Real.sqrt ((1:ℝ) * 1 + 0.1 * 0.1) ≠ 0
    exact ne_of_gt (Real.sqrt_pos.mpr (by norm_num))
  have hrw : (0:ℝ) ≤ cfgR.river_width := by norm_num [cfgR]
  have h := river_start_carve noiseZero cfgR hdir rfl rfl rfl hrw
  exact ⟨hdir, hrw, h.1, h.2.1⟩

/-- The fully flat configuration of the spec's scenario: the default values
with `terrain_amplitude = 0`, `erosion_strength = 0` on an 8×8 grid, and
`river_depth = 0` so that the river carve vanishes as well (with a nonzero
depth the carve alone already makes the height grid non-flat). -/
noncomputable def cfgFlat : HeightmapConfig :=
  { cfgR with
    width := 8
    height := 8
    terrain_amplitude := 0
    erosion_strength := 0
    river_depth := 0 }

/-- Claim C9 (code-bug demonstration): with the fully flat config every
sampled height is `0`, yet the slope grid value at the interior cell
`(4, 4)` is `1`, not `0`: all Sobel magnitudes vanish, the 95th percentile
is `0`, and the `f32` normalization `0.0 / 0.0` is NaN, which `.min(1.0)`
turns into `1.0`. Since `1 > max_slope`, no cell can then qualify as a
Building zone, contrary to the claim. -/
theorem flat_config_slope_one :
    (∀ (noise : HeightmapNoise) (x z : ℝ),
      sample_height_with_river noise cfgFlat x z = 0) ∧
    calculate_slope_map (generate_heightmap noiseZero cfgFlat) 8 8 4 4 = 1 ∧
    (1 : ℝ) ≠ 0 := by
  have hprof : ∀ d w : ℝ, calculate_river_profile cfgFlat d w = 0 := by
    intro d w
    simp only [calculate_river_profile]
    split_ifs <;> simp [cfgFlat]
  have herosion : ∀ d w : ℝ, calculate_erosion_factor cfgFlat d w = 0 := by
    intro d w
    simp only [calculate_erosion_factor]
    split_ifs <;> simp [cfgFlat]
  have heff : ∀ (noise : HeightmapNoise) (p : Vec2),
      calculate_river_effects noise cfgFlat p = (0, 0) := by
    intro noise p
    unfold calculate_river_effects
    rw [hprof, herosion]
  have henh : ∀ (noise : HeightmapNoise) (a b : ℝ),
      sample_enhanced_terrain_height noise cfgFlat a b = 0 := by
    intro noise a b
    simp only [sample_enhanced_terrain_height]
    have hamp : cfgFlat.terrain_amplitude = 0 := rfl
    rw [hamp]
    ring
  have hsample : ∀ (noise : HeightmapNoise) (x z : ℝ),
      sample_height_with_river noise cfgFlat x z = 0 := by
    intro noise x z
    simp only [sample_height_with_river]
    rw [heff noise ⟨x, z⟩]
    norm_num [apply_erosion_effects, henh]
  have hgrid : generate_heightmap noiseZero cfgFlat = fun _ _ => (0:ℝ) := by
    funext y x
    exact hsample noiseZero _ _
  have hmag : ∀ y x : Nat, sobelMagnitude (fun _ _ => (0:ℝ)) y x = 0 := by
    intro y x
    simp [sobelMagnitude]
  have hvals : ∀ v ∈ slopeValues (fun _ _ => (0:ℝ)) 8 8, v = 0 := by
    intro v hv
    unfold slopeValues at hv
    rw [List.mem_flatMap] at hv
    obtain ⟨i, _, hv⟩ := hv
    rw [List.mem_map] at hv
    obtain ⟨j, _, rfl⟩ := hv
    exact hmag _ _
  have hp95 : slopeP95 (fun _ _ => (0:ℝ)) 8 8 = 0 := by
    unfold slopeP95
    by_cases hi : 19 * (slopeValues (fun _ _ => (0:ℝ)) 8 8).length / 20 <
        (List.insertionSort (fun a b : ℝ => a ≤ b) (slopeValues (fun _ _ => (0:ℝ)) 8 8)).length
    · rw [List.getD_eq_getElem _ 0 hi]
      exact hvals _
        ((List.perm_insertionSort (fun a b : ℝ => a ≤ b) _).subset (List.getElem_mem hi))
    · rw [List.getD_eq_default _ 0 (le_of_not_lt hi)]
  refine ⟨hsample, ?_, by norm_num⟩
  rw [hgrid]
  simp only [calculate_slope_map]
  rw [if_pos (by omega), if_pos hp95]

/-- `f32` values with NaN, modelled as `Option ℝ` (`none` is NaN, possibly
`±∞`); arithmetic propagates `none`, and comparisons with `none` are false,
as IEEE comparisons with NaN are. -/
def fAdd : Option ℝ → Option ℝ → Option ℝ
  | some a, some b => some (a + b)
  | _, _ => none

def fSub : Option ℝ → Option ℝ → Option ℝ
  | some a, some b => some (a - b)
  | _, _ => none

def fMul : Option ℝ → Option ℝ → Option ℝ
  | some a, some b => some (a * b)
  | _, _ => none

/-- Division; a zero divisor yields `±∞`/NaN in `f32`, collapsed to `none`. -/
noncomputable def fDiv : Option ℝ → Option ℝ → Option ℝ
  | some a, some b => if b = 0 then none else some (a / b)
  | _, _ => none

def fNeg : Option ℝ → Option ℝ
  | some a => some (-a)
  | _ => none

noncomputable def fSin : Option ℝ → Option ℝ := Option.map Real.sin

noncomputable def fCos : Option ℝ → Option ℝ := Option.map Real.cos

/-- Square root; negative inputs are NaN in `f32`. -/
noncomputable def fSqrt : Option ℝ → Option ℝ
  | some a => if a < 0 then none else some (Real.sqrt a)
  | _ => none

/-- The `<=` comparison on `f32`: false whenever an operand is NaN. -/
noncomputable def fleB : Option ℝ → Option ℝ → Bool
  | some a, some b => decide (a ≤ b)
  | _, _ => false

/-- `glam`'s `Vec2::normalize` with NaN tracked: it multiplies by
`length().recip()`, so a zero-length vector yields `0 * ∞ = NaN` in both
components. -/
noncomputable def normalizeF (v : Vec2) : Option ℝ × Option ℝ :=
  if v.length = 0 then (none, none)
  else (some (v.x / v.length), some (v.y / v.length))

/-- `distance_along_river` with NaN tracked (the dot product against the
normalized direction). -/
noncomputable def riverDistanceAlongF (cfg : HeightmapConfig) (position : Vec2) :
    Option ℝ :=
  fAdd (fMul (some (position.x - cfg.river_start.x)) (normalizeF cfg.river_direction).1)
    (fMul (some (position.y - cfg.river_start.y)) (normalizeF cfg.river_direction).2)

/-- The meander offset with NaN tracked: a NaN flow coordinate propagates
through every sine/noise term of `calculate_realistic_meander`. -/
noncomputable def meanderF (noise : HeightmapNoise) (cfg : HeightmapConfig)
    (s : Option ℝ) : Option ℝ :=
  Option.map (calculate_realistic_meander noise cfg) s

/-- The river centerline with NaN tracked. -/
noncomputable def riverCenterF (noise : HeightmapNoise) (cfg : HeightmapConfig)
    (position : Vec2) : Option ℝ × Option ℝ :=
  let s := riverDistanceAlongF cfg position
  let d := normalizeF cfg.river_direction
  let m := meanderF noise cfg s
  (fAdd (some cfg.river_start.x) (fAdd (fMul d.1 s) (fMul (fNeg d.2) m)),
   fAdd (some cfg.river_start.y) (fAdd (fMul d.2 s) (fMul d.1 m)))

/-- `distance_to_river` with NaN tracked. -/
noncomputable def riverDistanceToF (noise : HeightmapNoise) (cfg : HeightmapConfig)
    (position : Vec2) : Option ℝ :=
  let c := riverCenterF noise cfg position
  let dx := fSub (some position.x) c.1
  let dy := fSub (some position.y) c.2
  fSqrt (fAdd (fMul dx dx) (fMul dy dy))

/-- `actual_river_width` with NaN tracked. -/
noncomputable def riverActualWidthF (noise : HeightmapNoise) (cfg : HeightmapConfig)
    (position : Vec2) : Option ℝ :=
  fMul (some cfg.river_width)
    (fAdd (some 1)
      (fMul (Option.map (fun s => noise.river_width_noise (s * 0.0005) 0)
        (riverDistanceAlongF cfg position)) (some 0.3)))

/-- `calculate_river_profile` with NaN-aware comparisons: both piecewise
conditions are false on a NaN distance, so the function falls through to
the `else` branch and returns `0.0`. -/
noncomputable def calculate_river_profileF (cfg : HeightmapConfig)
    (dist width : Option ℝ) : Option ℝ :=
  let water_edge := fMul width (some 0.5)
  let bank_end := fAdd water_edge (some cfg.bank_slope_distance)
  if fleB dist water_edge then some (-cfg.river_depth)
  else if fleB dist bank_end then
    let p := fDiv (fSub dist water_edge) (some cfg.bank_slope_distance)
    let smooth1 := fSub (some 1) (fMul p (fMul p p))
    let smooth2 := fSin (fMul (fMul (fSub (some 1) p) (some Real.pi)) (some 0.5))
    let smooth3 := fMul (fAdd (some 1) (fCos (fMul p (some Real.pi)))) (some 0.5)
    fMul (some (-cfg.river_depth))
      (fAdd (fAdd (fMul smooth1 (some 0.5)) (fMul smooth2 (some 0.3)))
        (fMul smooth3 (some 0.2)))
  else some 0

/-- `calculate_erosion_factor` with NaN-aware comparisons. -/
noncomputable def calculate_erosion_factorF (cfg : HeightmapConfig)
    (dist width : Option ℝ) : Option ℝ :=
  let water_edge := fMul width (some 0.5)
  let erosion_end := fAdd water_edge (some cfg.erosion_radius)
  if fleB dist water_edge then some cfg.erosion_strength
  else if fleB dist erosion_end then
    let p := fDiv (fSub dist water_edge) (some cfg.erosion_radius)
    fMul (some cfg.erosion_strength) (fMul (fSub (some 1) p) (fSub (some 1) p))
  else some 0

/-- `calculate_river_effects` with NaN tracked. -/
noncomputable def calculate_river_effectsF (noise : HeightmapNoise)
    (cfg : HeightmapConfig) (position : Vec2) : Option ℝ × Option ℝ :=
  (calculate_river_profileF cfg (riverDistanceToF noise cfg position)
      (riverActualWidthF noise cfg position),
   calculate_erosion_factorF cfg (riverDistanceToF noise cfg position)
      (riverActualWidthF noise cfg position))

/-- Claim C8 (code-bug demonstration): a zero-length river direction is not
rejected anywhere — `normalize` silently divides by zero and produces NaN
components, the distance to the river becomes NaN, and since `f32`
comparisons with NaN are false both piecewise functions fall through to
their `else` branches: the effects are plainly `(0.0, 0.0)` with no error
of any kind (the return type has no error variant). -/
theorem zero_direction_no_error (cfg : HeightmapConfig)
    (hdir : cfg.river_direction = ⟨0, 0⟩) (noise : HeightmapNoise)
    (position : Vec2) :
    normalizeF cfg.river_direction = (none, none) ∧
    riverDistanceToF noise cfg position = none ∧
    calculate_river_effectsF noise cfg position = (some 0, some 0) := by
  have hlen : (⟨0, 0⟩ : Vec2).length = 0 := by
    unfold Vec2.length
    norm_num
  have hnorm : normalizeF cfg.river_direction = (none, none) := by
    rw [hdir]
    unfold normalizeF
    rw [if_pos hlen]
  have hs : riverDistanceAlongF cfg position = none := by
    unfold riverDistanceAlongF
    rw [hnorm]
    rfl
  have hdist : riverDistanceToF noise cfg position = none := by
    unfold riverDistanceToF riverCenterF
    rw [hnorm, hs]
    rfl
  have hwid : riverActualWidthF noise cfg position = none := by
    unfold riverActualWidthF
    rw [hs]
    rfl
  refine ⟨hnorm, hdist, ?_⟩
  unfold calculate_river_effectsF
  rw [hdist, hwid]
  unfold calculate_river_profileF calculate_erosion_factorF
  rfl

/-- The default config with a degenerate zero-length river direction. -/
noncomputable def cfgZeroDir : HeightmapConfig := { cfgR with river_direction := ⟨0, 0⟩ }

theorem zero_direction_no_error_witness :
    calculate_river_effectsF noiseZero cfgZeroDir ⟨3, 4⟩ = (some 0, some 0) :=
  (zero_direction_no_error cfgZeroDir rfl noiseZero ⟨3, 4⟩).2.2

end Wasteland

